import Mathlib

/-!
Request-scoped transaction manager (package `database`).

A shallow embedding of `tx.go`, `db.go` and `types.go`.

* The pooled driver (`pgxpool.Pool`, `pgx.Tx`, `pgx.Rows`) is an external collaborator.  It is
  taken as a parameter `Driver`: every driver call answers as an arbitrary function of the calls
  made so far, so the theorems hold for every deterministic driver behaviour.
* Stateful code is explicit state passing over `State`: the `txWrapper` fields, the trace of
  driver calls and row-handler invocations, the log, and the response writer.
* A Go call either returns or panics: `Outcome`.
* Log lines are kept without their run-time dependent parts (timestamps, caller location, stack).
-/

namespace Database

/-! ## Values, errors, outcomes -/

/-- Go `error` value of the driver or of a row handler, identified by its message. -/
abbrev Err := String

/-- An `interface{}` value: a statement argument or a result column. -/
inductive Value where
  | null
  | int (i : Int)
  | text (s : String)
deriving DecidableEq, Repr

/-- One result row, as `Result.Values()` reports it. -/
abbrev Row := List Value

/-- What the `Unwrap` method of an `error` does when `errors.Unwrap` calls it: the error has no
such method or it returns nil (`none`), it returns the wrapped error (`wraps`), or the method
itself panics with a run-time error (`panics`), as a method that reads a field through a nil
pointer does. -/
inductive Unwrap where
  | none
  | wraps (msg : String)
  | panics (msg : String)
deriving DecidableEq, Repr

/-- The value a panic carries, as `recover()` reports it (never nil): either an `error`, with
the behaviour of its `Unwrap` method, or a value of another type. -/
inductive PanicValue where
  | error (msg : String) (unwrap : Unwrap)
  | value (repr : String)
deriving DecidableEq, Repr

/-- How a Go call ends: it returns a value or it panics. -/
inductive Outcome (α : Type) where
  | ret (a : α)
  | panicked (v : PanicValue)
deriving DecidableEq, Repr

/-- The run-time panic of a method call on a nil interface value. -/
def nilDereference : PanicValue :=
  .error "runtime error: invalid memory address or nil pointer dereference" .none

/-- `errors.Unwrap(e)` on an `error` with the given `Unwrap` behaviour. -/
def errorsUnwrap : Unwrap → Outcome (Option String)
  | .none => .ret none
  | .wraps msg => .ret (some msg)
  | .panics msg => .panicked (.error msg .none)

/-- `ResultHandler` of `types.go`, a closure: its answer on a row (nil, an error, or a panic) may
depend on the state it captured, that is on the rows it was called on before during the query
(first argument, in call order) as well as on the row itself (second argument). -/
abbrev ResultHandler := List Row → Row → Outcome (Option Err)

/-! ## Execution contexts -/

/-- Context keys: `TransactionKey` (`key(0)`) and keys of other types. -/
inductive Key where
  | TransactionKey
  | other (name : String)
deriving DecidableEq, Repr

/-- A `Transaction` interface value: the address of a `txWrapper`. -/
abbrev Transaction := Nat

/-- Values a context can bind: nil, a `Transaction`, or a value of another type. -/
inductive Any where
  | nil
  | transaction (tx : Transaction)
  | other (repr : String)
deriving DecidableEq, Repr

/-- `context.Context`: an immutable chain of key/value bindings. -/
inductive Context where
  | background
  | withValue (parent : Context) (key : Key) (val : Any)
deriving DecidableEq, Repr

/-- `ctx.Value(key)`: the innermost binding of `key`, nil when there is none. -/
def Context.Value : Context → Key → Any
  | .background, _ => .nil
  | .withValue parent key val, k => if k = key then val else parent.Value k

/-- The value `FromContext` panics with: an `errors.New` error. -/
def usageError : PanicValue :=
  .error "unable to get Transaction. The provided request is not whapped by TransactionHandler"
    .none

/-- `FromContext` of `tx.go`: the type assertion `ctx.Value(TransactionKey).(Transaction)`
succeeds exactly on a bound `Transaction`; otherwise the function panics. -/
def FromContext (ctx : Context) : Outcome Transaction :=
  match ctx.Value .TransactionKey with
  | .transaction tx => .ret tx
  | _ => .panicked usageError

/-! ## The driver -/

/-- Identity of a `*pgxpool.Pool`. -/
abbrev Pool := Nat

/-- Identity of a `pgx.Tx` object. -/
abbrev Tx := Nat

/-- Row cursor `pgx.Rows`: the rows for which `Next()` reports true, in order, and the error
`Err()` would report once `Next()` has reported false. -/
structure Rows where
  rows : List Row
  err : Option Err
deriving DecidableEq, Repr

/-- What happened so far: the driver calls, and the invocations of a row handler. -/
inductive Event where
  | poolBegin (pool : Pool)
  | exec (tx : Tx) (sql : String) (args : List Value)
  | query (tx : Tx) (sql : String) (args : List Value)
  | handler (row : Row)
  | rowsClose (tx : Tx)
  | commit (tx : Tx)
  | rollback (tx : Tx)
deriving DecidableEq, Repr

/-- The pooled driver: each call answers as a function of the history and of its arguments. -/
structure Driver where
  Begin : List Event → Pool → Context → Except Err Tx
  Exec : List Event → Tx → Context → String → List Value → Except Err Int
  Query : List Event → Tx → Context → String → List Value → Except Err Rows
  Commit : List Event → Tx → Context → Option Err
  Rollback : List Event → Tx → Context → Option Err

/-! ## The response writer (`net/http`) -/

/-- The implementation behind the `http.ResponseWriter` interface: the response of the
`net/http` server, the `httptest.ResponseRecorder` the tests pass, or an implementation whose
methods panic with the given value. -/
inductive WriterKind where
  | server
  | recorder
  | faulty (v : PanicValue)
deriving DecidableEq, Repr

/-- A `Content-Type`: one set in the header map, or the one `http.DetectContentType` finds for
the bytes written first. -/
inductive ContentType where
  | header (value : String)
  | detected (data : String)
deriving DecidableEq, Repr

/-- The part of an `http.ResponseWriter` the middleware touches: the `Content-Type` entry of the
header map, the status code once the response header is written (with the `Content-Type` sent
with it), and the body written so far. -/
structure ResponseWriter where
  kind : WriterKind
  contentType : Option ContentType
  status : Option Nat
  sentContentType : Option ContentType
  body : String
deriving DecidableEq, Repr

/-- A writer nothing was written to. -/
def ResponseWriter.fresh (kind : WriterKind) : ResponseWriter :=
  { kind := kind, contentType := none, status := none, sentContentType := none, body := "" }

/-- `bodyAllowedForStatus` of `net/http`: no body after 1xx, 204 and 304. -/
def bodyAllowedForStatus (status : Nat) : Bool :=
  !((100 ≤ status && status ≤ 199) || status == 204 || status == 304)

/-- `w.WriteHeader(code)`: a call after the header is written is ignored; a code outside
100..999 panics (`checkWriteHeaderCode`); the server sends a 1xx code other than 101 as an
informational header and still waits for the final one; otherwise the header is written with
the `Content-Type` of the header map. -/
def ResponseWriter.WriteHeader (w : ResponseWriter) (code : Nat) : Outcome ResponseWriter :=
  match w.kind with
  | .faulty v => .panicked v
  | kind =>
    match w.status with
    | some _ => .ret w
    | none =>
      if code < 100 ∨ 999 < code then
        .panicked (.value ("invalid WriteHeader code " ++ toString code))
      else if kind = .server ∧ 100 ≤ code ∧ code ≤ 199 ∧ code ≠ 101 then .ret w
      else .ret { w with status := some code, sentContentType := w.contentType }

/-- `w.Write(data)`.  If the header is not written yet it is written with status 200.  The
recorder then appends the data, after detecting the `Content-Type` when it wrote the header
itself and none was set.  The server refuses the data after a status that allows no body, and
detects the `Content-Type` from the first bytes when the header was written without one. -/
def ResponseWriter.Write (w : ResponseWriter) (data : String) : Outcome ResponseWriter :=
  match w.kind with
  | .faulty v => .panicked v
  | .recorder =>
    match w.status with
    | some _ => .ret { w with body := w.body ++ data }
    | none =>
      let ct := w.contentType.getD (.detected data)
      .ret { w with contentType := some ct, status := some 200, sentContentType := some ct,
                    body := w.body ++ data }
  | .server =>
    let w1 := match w.status with
      | some _ => w
      | none => { w with status := some 200, sentContentType := w.contentType }
    if bodyAllowedForStatus (w1.status.getD 200) then
      let ct := match w1.sentContentType with
        | some ct => some ct
        | none => if data = "" then none else some (.detected data)
      .ret { w1 with sentContentType := ct, body := w1.body ++ data }
    else .ret w1

/-- `http.Error(w, error, code)`: sets the plain-text content type in the header map, calls
`w.WriteHeader(code)` and prints the message followed by a newline with one `w.Write`. -/
def httpError (w : ResponseWriter) (error : String) (code : Nat) : Outcome ResponseWriter :=
  match w.kind with
  | .faulty v => .panicked v
  | _ =>
    match ({ w with contentType := some (.header "text/plain; charset=utf-8") }).WriteHeader
        code with
    | .panicked v => .panicked v
    | .ret w1 => w1.Write (error ++ "\n")

/-! ## The transaction handle -/

/-- The struct `txWrapper` of `tx.go`. -/
structure txWrapper where
  pool : Pool
  tx : Option Tx
  ctx : Context
  debug : Bool
deriving DecidableEq, Repr

/-- The state threaded through the code: the handle, the trace, the log, the response writer. -/
structure State where
  t : txWrapper
  trace : List Event
  log : List String
  w : ResponseWriter
deriving DecidableEq, Repr

/-- `log.Printf`. -/
def State.logf (s : State) (line : String) : State :=
  { s with log := s.log ++ [line] }

/-- A `log.Printf` guarded by `if t.debug`. -/
def State.debugf (s : State) (line : String) : State :=
  if s.t.debug then s.logf line else s

/-- A driver call is recorded in the trace. -/
def State.record (s : State) (e : Event) : State :=
  { s with trace := s.trace ++ [e] }

/-- The assignment to `t.tx`. -/
def State.setTx (s : State) (tx : Option Tx) : State :=
  { s with t := { s.t with tx := tx } }

/-- Method `begin`: opens the underlying transaction on the pool if the handle has none. -/
def txWrapper.begin (d : Driver) (s : State) : State × Option Err :=
  match s.t.tx with
  | none =>
    match d.Begin s.trace s.t.pool s.t.ctx with
    | .error err => (((s.record (.poolBegin s.t.pool)).logf "[tx] START FAILED"), some err)
    | .ok tx => (((s.record (.poolBegin s.t.pool)).setTx (some tx)), none)
  | some _ => (s, none)

/-- Method `Execute`: the result of `t.begin()` is dropped, then `t.tx.Exec` is called; on a nil
`t.tx` that call is a nil dereference. -/
def txWrapper.Execute (d : Driver) (s : State) (sql : String) (args : List Value) :
    State × Outcome (Int × Option Err) :=
  let s1 := (txWrapper.begin d s).1
  match s1.t.tx with
  | none => (s1, .panicked nilDereference)
  | some tx =>
    match d.Exec s1.trace tx s1.t.ctx sql args with
    | .error err =>
      ((((s1.record (.exec tx sql args)).logf ("[tx] Exec \"" ++ sql ++ "\"")).logf
        ("[tx] ERROR \"" ++ err ++ "\"")), .ret (0, some err))
    | .ok rowsAffected => (s1.record (.exec tx sql args), .ret (rowsAffected, none))

/-- An `int32` after an arithmetic step: two's complement wrap-around. -/
def wrapInt32 (x : Int) : Int :=
  (x + 2147483648) % 4294967296 - 2147483648

/-- The loop `for rows.Next() { err = handler(rows); if err != nil { return -1, err }; c++ }`
followed by `return c, nil`, on the rows still to come, after the handler was called on the rows
`seen` and with counter value `c`; each handler call is recorded. -/
def txWrapper.iterate (handler : ResultHandler) :
    List Row → List Row → Int → List Event → List Event × Outcome (Int × Option Err)
  | [], _, c, trace => (trace, .ret (c, none))
  | row :: rest, seen, c, trace =>
    match handler seen row with
    | .panicked v => (trace ++ [.handler row], .panicked v)
    | .ret (some err) => (trace ++ [.handler row], .ret (-1, some err))
    | .ret none =>
      txWrapper.iterate handler rest (seen ++ [row]) (wrapInt32 (c + 1))
        (trace ++ [.handler row])

/-- The step `if handler == nil { handler = func(r Result) error { return nil } }`. -/
def txWrapper.orNoop (handler : Option ResultHandler) : ResultHandler :=
  match handler with
  | some h => h
  | none => fun _ _ => .ret none

/-- Method `Query`: like `Execute` for the begin; a nil handler is replaced by one that always
succeeds; `rows.Close()` is deferred, so it runs however the loop ends; `rows.Err()` is never
consulted. -/
def txWrapper.Query (d : Driver) (s : State) (query : String) (handler : Option ResultHandler)
    (args : List Value) : State × Outcome (Int × Option Err) :=
  let s1 := (txWrapper.begin d s).1
  match s1.t.tx with
  | none => (s1, .panicked nilDereference)
  | some tx =>
    match d.Query s1.trace tx s1.t.ctx query args with
    | .error err => (s1.record (.query tx query args), .ret (-1, some err))
    | .ok rows =>
      let r := txWrapper.iterate (txWrapper.orNoop handler) rows.rows [] 0
        (s1.record (.query tx query args)).trace
      ({ s1 with trace := r.1 ++ [.rowsClose tx] }, r.2)

/-- Method `Rollback`. -/
def txWrapper.Rollback (d : Driver) (s : State) : State :=
  match s.t.tx with
  | some tx =>
    let s1 := s.debugf "[tx] Rolling back..."
    let s2 := (s1.setTx none).record (.rollback tx)
    let s3 := match d.Rollback s1.trace tx s1.t.ctx with
      | some err => s2.logf ("Error rolling back: " ++ err)
      | none => s2
    s3.debugf "[tx] ROLLBACK"
  | none => s

/-- Method `Commit`: the deferred `t.tx = nil` runs on both ways out of the inner block. -/
def txWrapper.Commit (d : Driver) (s : State) : State × Option Err :=
  match s.t.tx with
  | some tx =>
    let s1 := s.debugf "[tx] COMMITTING"
    match d.Commit s1.trace tx s1.t.ctx with
    | some err => ((txWrapper.Rollback d (s1.record (.commit tx))).setTx none, some err)
    | none => (((s1.record (.commit tx)).debugf "[tx] COMMITTED").setTx none, none)
  | none => (s, none)

/-- Method `Context`. -/
def txWrapper.Context (s : State) : Context :=
  s.t.ctx

/-! ## The request-scoping middleware -/

/-- What the middleware reads of an `*http.Request`: the URL path and the context. -/
structure Request where
  path : String
  ctx : Context
deriving DecidableEq, Repr

/-- A wrapped `http.Handler` as the sequence of things it does to the bound transaction handle
and to the response writer, each step chosen from the results of the steps before it.  A step
that panics hands the panic to the handler, which may recover it (go on) or let it propagate
(`panic` with the same value).  `done` is a return, at the end or early. -/
inductive Script where
  | done
  | panic (v : PanicValue)
  | execute (sql : String) (args : List Value) (next : Outcome (Int × Option Err) → Script)
  | query (sql : String) (handler : Option ResultHandler) (args : List Value)
      (next : Outcome (Int × Option Err) → Script)
  | commit (next : Option Err → Script)
  | rollback (next : Script)
  | setContentType (value : String) (next : Script)
  | writeHeader (code : Nat) (next : Outcome Unit → Script)
  | write (data : String) (next : Outcome Unit → Script)

/-- A call on the response writer inside a handler: the writer is updated when the call
returns and left as it is when the call panics. -/
def State.respond (s : State) (r : Outcome ResponseWriter) : State × Outcome Unit :=
  match r with
  | .ret w => ({ s with w := w }, .ret ())
  | .panicked v => (s, .panicked v)

/-- Running a handler: how it exits (returns or panics) and the state it leaves. -/
def Script.run (d : Driver) : Script → State → State × Outcome Unit
  | .done, s => (s, .ret ())
  | .panic v, s => (s, .panicked v)
  | .execute sql args next, s =>
    let r := txWrapper.Execute d s sql args
    (next r.2).run d r.1
  | .query sql handler args next, s =>
    let r := txWrapper.Query d s sql handler args
    (next r.2).run d r.1
  | .commit next, s =>
    let r := txWrapper.Commit d s
    (next r.2).run d r.1
  | .rollback next, s => next.run d (txWrapper.Rollback d s)
  | .setContentType value next, s =>
    next.run d { s with w := { s.w with contentType := some (.header value) } }
  | .writeHeader code next, s =>
    let r := s.respond (s.w.WriteHeader code)
    (next r.2).run d r.1
  | .write data next, s =>
    let r := s.respond (s.w.Write data)
    (next r.2).run d r.1

/-- What exists before the middleware creates its handle: trace, log and response writer. -/
structure World where
  trace : List Event
  log : List String
  w : ResponseWriter
deriving DecidableEq, Repr

/-- `newTransaction` of `tx.go`, on the package variable `pool` (`none` is nil). -/
def newTransaction (pool : Option Pool) (ctx : Context) (debug : Bool) : Outcome txWrapper :=
  match pool with
  | none => .panicked (.error "there is no database connection set" .none)
  | some p => .ret { pool := p, tx := none, ctx := ctx, debug := debug }

/-- `NewTransaction` of `tx.go`. -/
def NewTransaction (pool : Option Pool) (ctx : Context) : Outcome txWrapper :=
  newTransaction pool ctx false

/-- The context the middleware hands to the wrapped handler:
`context.WithValue(ctx, TransactionKey, tx)`, where `tx` is the handle at address `addr`. -/
def TransactionHandler.bind (ctx : Context) (addr : Transaction) : Context :=
  .withValue ctx .TransactionKey (.transaction addr)

/-- The call `h.ServeHTTP(w, r.WithContext(ctx))` on the fresh handle `tx`: the state in which
the wrapped handler exits, and how it exits. -/
def TransactionHandler.serve (h : Request → Script) (d : Driver) (tx : txWrapper)
    (addr : Transaction) (r : Request) (wd : World) : State × Outcome Unit :=
  (h { r with ctx := TransactionHandler.bind r.ctx addr }).run d
    { t := tx, trace := wd.trace, log := wd.log, w := wd.w }

/-- The recovery step of the deferred function.  When `recover()` is nil nothing is done.
Otherwise an `error` is replaced by `errors.Unwrap` of it, the failure is logged and
`http.Error` is called; `errors.Unwrap` calls the `Unwrap` method of the recovered value and
`http.Error` calls the response writer, and a panic of either leaves the deferred function at
that point. -/
def TransactionHandler.recover (s : State) (exit : Outcome Unit) : State × Outcome Unit :=
  match exit with
  | .ret _ => (s, .ret ())
  | .panicked v =>
    let unwrapped : Outcome String := match v with
      | .error _ unwrap =>
        match errorsUnwrap unwrap with
        | .ret err => .ret (err.getD "<nil>")
        | .panicked v2 => .panicked v2
      | .value repr => .ret repr
    match unwrapped with
    | .panicked v2 => (s, .panicked v2)
    | .ret err =>
      let s1 := (s.logf ("fatal error during transaction call: " ++ err)).logf "stack"
      s1.respond (httpError s1.w "Internal server error" 500)

/-- The deferred function of the middleware: the recovery step, then `tx.Rollback()`, then
the log line of the diagnostic mode.  A panic of the recovery step leaves the function before
`tx.Rollback()` is reached. -/
def TransactionHandler.deferred (debugEnabled : Bool) (d : Driver) (r : Request) (s : State)
    (exit : Outcome Unit) : State × Outcome Unit :=
  match TransactionHandler.recover s exit with
  | (s1, .panicked v) => (s1, .panicked v)
  | (s1, .ret _) =>
    let s2 := txWrapper.Rollback d s1
    (if debugEnabled then s2.logf ("TransactionHandler END: " ++ r.path) else s2, .ret ())

/-- The entry of the middleware: the log line of the diagnostic mode. -/
def TransactionHandler.enter (debugEnabled : Bool) (r : Request) (wd : World) : World :=
  if debugEnabled then { wd with log := wd.log ++ ["TransactionHandler BEGIN: " ++ r.path] }
  else wd

/-- `TransactionHandler(h).ServeHTTP(w, r)`, with `debugEnabled` read from the environment when
the middleware was built and `addr` the address of the handle it allocates.  `.error` is the
panic of `newTransaction`, raised before a handle exists and before the deferred function is
set up.  `.ok` gives the final state and how `ServeHTTP` ends: it returns, or it panics with
the value a panic inside the deferred function carries. -/
def TransactionHandler (debugEnabled : Bool) (h : Request → Script) (d : Driver)
    (pool : Option Pool) (addr : Transaction) (r : Request) (wd : World) :
    Except (World × PanicValue) (State × Outcome Unit) :=
  let wd1 := TransactionHandler.enter debugEnabled r wd
  match newTransaction pool r.ctx debugEnabled with
  | .panicked v => .error (wd1, v)
  | .ret tx =>
    let served := TransactionHandler.serve h d tx addr r wd1
    .ok (TransactionHandler.deferred debugEnabled d r served.1 served.2)

/-- With the pool configured: the state in which the wrapped handler exits inside
`TransactionHandler`, and how it exits. -/
def TransactionHandler.served (debugEnabled : Bool) (h : Request → Script) (d : Driver)
    (pool : Pool) (addr : Transaction) (r : Request) (wd : World) : State × Outcome Unit :=
  TransactionHandler.serve h d { pool := pool, tx := none, ctx := r.ctx, debug := debugEnabled }
    addr r (TransactionHandler.enter debugEnabled r wd)

/-! ## The connection configuration (`db.go`) -/

/-- The struct `DatabaseConfig` of `types.go`; `Port` is a `uint16`. -/
structure DatabaseConfig where
  Host : String
  Port : Nat
  Database : String
  User : String
  Password : String
  RuntimeParams : List (String × String)
deriving DecidableEq, Repr

/-- The separator step `if buffer.Len() > 0 { buffer.WriteString(" ") }`. -/
def DatabaseConfig.separate (buffer : String) : String :=
  if buffer.utf8ByteSize > 0 then buffer ++ " " else buffer

/-- The closure `add` of `String`, on the buffer it captures. -/
def DatabaseConfig.add (buffer key value : String) : String :=
  if value ≠ "" then DatabaseConfig.separate buffer ++ (key ++ "=" ++ value) else buffer

/-- The serialization in the words of the specification: the entries host, port, database, user,
password in that order, an entry left out when its string is empty or its port is zero. -/
def DatabaseConfig.entries (c : DatabaseConfig) : List (Option String) :=
  [ if c.Host = "" then none else some ("host=" ++ c.Host),
    if c.Port = 0 then none else some ("port=" ++ toString c.Port),
    if c.Database = "" then none else some ("database=" ++ c.Database),
    if c.User = "" then none else some ("user=" ++ c.User),
    if c.Password = "" then none else some ("password=" ++ c.Password) ]

/-- The entries that are present, joined by single spaces. -/
def DatabaseConfig.joined (c : DatabaseConfig) : String :=
  " ".intercalate (c.entries.filterMap id)

/-- Method `String` of `DatabaseConfig`. -/
def DatabaseConfig.String (c : DatabaseConfig) : String :=
  let buffer := ""
  let buffer := DatabaseConfig.add buffer "host" c.Host
  let buffer := if c.Port ≠ 0 then
      DatabaseConfig.separate buffer ++ ("port=" ++ toString c.Port)
    else buffer
  let buffer := DatabaseConfig.add buffer "database" c.Database
  let buffer := DatabaseConfig.add buffer "user" c.User
  let buffer := DatabaseConfig.add buffer "password" c.Password
  buffer

/-- The `Unwrap` method of the panic value returns when `errors.Unwrap` calls it (always so for
a value that is no `error`). -/
def PanicValue.unwraps : PanicValue → Bool
  | .error _ (.panics _) => false
  | _ => true

/-- The methods of the response writer return: it is not of the kind whose methods panic. -/
def ResponseWriter.sound (w : ResponseWriter) : Bool :=
  match w.kind with
  | .faulty _ => false
  | _ => true

/-! ## Sample drivers and states, for the concrete instances -/

/-- A driver on which every call succeeds: `select`-like queries yield the single row `1`. -/
def okDriver : Driver :=
  { Begin := fun _ _ _ => .ok 7
    Exec := fun _ _ _ _ _ => .ok 1
    Query := fun _ _ _ _ _ => .ok { rows := [[.int 1]], err := none }
    Commit := fun _ _ _ => none
    Rollback := fun _ _ _ => none }

/-- A driver whose `Commit` fails, and whose compensating `Rollback` fails too. -/
def commitFailingDriver : Driver :=
  { okDriver with
    Commit := fun _ _ _ => some "commit failed"
    Rollback := fun _ _ _ => some "rollback failed" }

/-- A driver on which the pool cannot open a transaction. -/
def beginFailingDriver : Driver :=
  { okDriver with Begin := fun _ _ _ => .error "connection refused" }

/-- A driver whose query is issued successfully and then fails at run time while the rows are
read: `Next()` yields one row and then reports false, with `Err()` set. -/
def brokenCursorDriver : Driver :=
  { okDriver with Query := fun _ _ _ _ _ => .ok { rows := [[.int 1]], err := some "unexpected EOF" } }

/-- A driver whose query returns 2147483648 rows. -/
def hugeDriver : Driver :=
  { okDriver with
    Query := fun _ _ _ _ _ => .ok { rows := List.replicate 2147483648 [.int 1], err := none } }

/-- A driver whose query returns the rows 1, 2, 3, as `select id from test order by id` does in
`TestCreateTableCRUDandDropTable`. -/
def threeRowsDriver : Driver :=
  { okDriver with
    Query := fun _ _ _ _ _ => .ok { rows := [[.int 1], [.int 2], [.int 3]], err := none } }

/-- A driver whose query returns three equal rows. -/
def equalRowsDriver : Driver :=
  { okDriver with
    Query := fun _ _ _ _ _ => .ok { rows := [[.int 5], [.int 5], [.int 5]], err := none } }

/-- The row handler of `connectAndCheck`: the single column must be `1`. -/
def expectOne : ResultHandler := fun _ row =>
  if row = [.int 1] then .ret none else .ret (some "Expected 1")

/-- A row handler that counts its calls in a captured variable and fails on the second one,
whatever the row is. -/
def failOnSecond : ResultHandler := fun seen _ =>
  if seen.length = 1 then .ret (some "second row") else .ret none

/-- A handle as `newTransaction` builds it on pool `1`, before any use. -/
def unopened : State :=
  { t := { pool := 1, tx := none, ctx := .background, debug := true }
    trace := [], log := [], w := ResponseWriter.fresh .recorder }

/-- A handle holding the open underlying transaction `7`. -/
def opened : State :=
  { unopened with t := { unopened.t with tx := some 7 }, trace := [.poolBegin 1] }

/-- A request on the background context, as the tests send it. -/
def sampleRequest : Request :=
  { path := "/", ctx := .background }

/-- The world before a request is served: nothing called, nothing logged, and the fresh
recorder the tests pass. -/
def freshWorld : World :=
  { trace := [], log := [], w := ResponseWriter.fresh .recorder }

/-- The same world with the response of the `net/http` server as writer. -/
def serverWorld : World :=
  { trace := [], log := [], w := ResponseWriter.fresh .server }

/-- A handler that inserts a row and panics before committing, with nothing written to the
response; the panic value is an error that wraps another one. -/
def panicMidway : Request → Script := fun _ =>
  .execute "insert into category(name) values ('demo')" []
    (fun _ => .panic (.error "lookup failed" (.wraps "duplicate key")))

/-- A handler that inserts a row and panics before committing with an error value whose
`Unwrap` method panics: it reads the wrapped error through a pointer that is nil. -/
def panicUnwrapFails : Request → Script := fun _ =>
  .execute "insert into category(name) values ('demo')" []
    (fun _ => .panic (.error "lookup failed"
      (.panics "runtime error: invalid memory address or nil pointer dereference")))

/-- A handler that inserts a row, starts its response (plain text, status 200, a body), and
then panics. -/
def writeThenPanic : Request → Script := fun _ =>
  .execute "insert into category(name) values ('demo')" []
    (fun _ => .setContentType "text/plain"
      (.writeHeader 200 (fun _ => .write "saved" (fun _ => .panic (.value "boom")))))

/-- The handler of request 1 of `TestTransactionHandler`: insert, commit, return. -/
def insertAndCommit : Request → Script := fun _ =>
  .execute "insert into category(name) values ('demo')" [] (fun _ => .commit (fun _ => .done))

/-! ## Basic facts on the state helpers -/

@[simp]
theorem State.logf_t (s : State) (l : String) : (s.logf l).t = s.t := rfl

@[simp]
theorem State.logf_trace (s : State) (l : String) : (s.logf l).trace = s.trace := rfl

@[simp]
theorem State.logf_w (s : State) (l : String) : (s.logf l).w = s.w := rfl

@[simp]
theorem State.debugf_t (s : State) (l : String) : (s.debugf l).t = s.t := by
  unfold State.debugf; split <;> rfl

@[simp]
theorem State.debugf_trace (s : State) (l : String) : (s.debugf l).trace = s.trace := by
  unfold State.debugf; split <;> rfl

@[simp]
theorem State.debugf_w (s : State) (l : String) : (s.debugf l).w = s.w := by
  unfold State.debugf; split <;> rfl

@[simp]
theorem State.record_t (s : State) (e : Event) : (s.record e).t = s.t := rfl

@[simp]
theorem State.record_trace (s : State) (e : Event) : (s.record e).trace = s.trace ++ [e] := rfl

@[simp]
theorem State.record_w (s : State) (e : Event) : (s.record e).w = s.w := rfl

@[simp]
theorem State.setTx_tx (s : State) (tx : Option Tx) : (s.setTx tx).t.tx = tx := rfl

@[simp]
theorem State.setTx_ctx (s : State) (tx : Option Tx) : (s.setTx tx).t.ctx = s.t.ctx := rfl

@[simp]
theorem State.setTx_trace (s : State) (tx : Option Tx) : (s.setTx tx).trace = s.trace := rfl

@[simp]
theorem State.setTx_w (s : State) (tx : Option Tx) : (s.setTx tx).w = s.w := rfl

/-- On a handle without underlying transaction `Rollback` does nothing at all. -/
theorem Rollback_of_none (d : Driver) (s : State) (h : s.t.tx = none) :
    txWrapper.Rollback d s = s := by
  simp [txWrapper.Rollback, h]

/-- On a handle without underlying transaction `Commit` does nothing and returns nil. -/
theorem Commit_of_none (d : Driver) (s : State) (h : s.t.tx = none) :
    txWrapper.Commit d s = (s, none) := by
  simp [txWrapper.Commit, h]

/-- On an open handle `Rollback` clears the reference and calls the driver once. -/
theorem Rollback_of_some (d : Driver) (s : State) (tx : Tx) (h : s.t.tx = some tx) :
    (txWrapper.Rollback d s).t.tx = none ∧
      (txWrapper.Rollback d s).trace = s.trace ++ [.rollback tx] ∧
      (txWrapper.Rollback d s).w = s.w := by
  simp only [txWrapper.Rollback, h]
  cases d.Rollback (s.debugf "[tx] Rolling back...").trace tx (s.debugf "[tx] Rolling back...").t.ctx <;>
    simp

/-- After `Rollback` the handle has no underlying transaction. -/
theorem Rollback_tx (d : Driver) (s : State) : (txWrapper.Rollback d s).t.tx = none := by
  cases h : s.t.tx with
  | none => rw [Rollback_of_none d s h]; exact h
  | some tx => exact (Rollback_of_some d s tx h).1

/-- After `Commit` the handle has no underlying transaction. -/
theorem Commit_tx (d : Driver) (s : State) : (txWrapper.Commit d s).1.t.tx = none := by
  cases h : s.t.tx with
  | none => rw [Commit_of_none d s h]; exact h
  | some tx =>
    simp only [txWrapper.Commit, h]
    cases d.Commit (s.debugf "[tx] COMMITTING").trace tx (s.debugf "[tx] COMMITTING").t.ctx <;> simp

/-! ## Commit and Rollback -/

/-- C3: on a handle holding the open transaction `tx` whose driver `Commit` fails with `e`,
`Commit` returns exactly `e`, whatever the compensating rollback answers; the driver calls it
makes are the commit followed by exactly one rollback, both on `tx`; and the handle is left
without underlying transaction. -/
theorem Commit_failure_rolls_back (d : Driver) (s : State) (tx : Tx) (e : Err)
    (h : s.t.tx = some tx) (hc : d.Commit s.trace tx s.t.ctx = some e) :
    (txWrapper.Commit d s).2 = some e ∧
      (txWrapper.Commit d s).1.trace = s.trace ++ [.commit tx, .rollback tx] ∧
      (txWrapper.Commit d s).1.t.tx = none := by
  have hr := Rollback_of_some d ((s.debugf "[tx] COMMITTING").record (.commit tx)) tx (by simpa using h)
  refine ⟨?_, ?_, ?_⟩ <;> simp [txWrapper.Commit, h, hc, hr.2.1]

/-- C3 at a concrete input: the open handle `opened` on a driver whose commit and rollback both
fail. -/
theorem Commit_failure_rolls_back_witness :
    (txWrapper.Commit commitFailingDriver opened).2 = some "commit failed" ∧
      (txWrapper.Commit commitFailingDriver opened).1.trace
        = opened.trace ++ [.commit 7, .rollback 7] ∧
      (txWrapper.Commit commitFailingDriver opened).1.t.tx = none :=
  Commit_failure_rolls_back commitFailingDriver opened 7 "commit failed" rfl rfl

/-- C7: on a handle with no underlying transaction `Commit` returns nil and `Rollback` returns,
and both leave the whole state as it was: no call reaches the pool or a transaction (the trace is
unchanged) and every field of the handle keeps its value. -/
theorem Commit_Rollback_without_tx (d : Driver) (s : State) (h : s.t.tx = none) :
    txWrapper.Commit d s = (s, none) ∧ txWrapper.Rollback d s = s :=
  ⟨Commit_of_none d s h, Rollback_of_none d s h⟩

/-- C7 at a concrete input: the unopened handle. -/
theorem Commit_Rollback_without_tx_witness :
    txWrapper.Commit okDriver unopened = (unopened, none) ∧
      txWrapper.Rollback okDriver unopened = unopened :=
  Commit_Rollback_without_tx okDriver unopened rfl

/-- C8: whatever the driver answers, after `Commit` and after `Rollback` the handle has no
underlying transaction; so a second `Commit` returns nil and changes nothing (no driver call),
and a `Rollback` or `Commit` that follows a `Commit` or a `Rollback` changes nothing either. -/
theorem Commit_Rollback_idempotent (d d2 : Driver) (s : State) :
    (txWrapper.Commit d s).1.t.tx = none ∧
      (txWrapper.Rollback d s).t.tx = none ∧
      txWrapper.Commit d2 (txWrapper.Commit d s).1 = ((txWrapper.Commit d s).1, none) ∧
      txWrapper.Rollback d2 (txWrapper.Commit d s).1 = (txWrapper.Commit d s).1 ∧
      txWrapper.Rollback d2 (txWrapper.Rollback d s) = txWrapper.Rollback d s ∧
      txWrapper.Commit d2 (txWrapper.Rollback d s) = (txWrapper.Rollback d s, none) :=
  ⟨Commit_tx d s, Rollback_tx d s, Commit_of_none d2 _ (Commit_tx d s),
    Rollback_of_none d2 _ (Commit_tx d s), Rollback_of_none d2 _ (Rollback_tx d s),
    Commit_of_none d2 _ (Rollback_tx d s)⟩

/-! ## Execute and Query -/

/-- When the pool cannot open a transaction, `begin` returns the error and leaves the handle
unopened. -/
theorem begin_of_error (d : Driver) (s : State) (e : Err) (h : s.t.tx = none)
    (hb : d.Begin s.trace s.t.pool s.t.ctx = .error e) :
    (txWrapper.begin d s).2 = some e ∧ (txWrapper.begin d s).1.t.tx = none ∧
      (txWrapper.begin d s).1.trace = s.trace ++ [.poolBegin s.t.pool] := by
  simp [txWrapper.begin, h, hb]

/-- On an open handle `begin` does nothing. -/
theorem begin_of_some (d : Driver) (s : State) (tx : Tx) (h : s.t.tx = some tx) :
    txWrapper.begin d s = (s, none) := by
  simp [txWrapper.begin, h]

/-- When the pool cannot open a transaction on an unopened handle, `Execute` and `Query` do not
return: the method call on the nil `t.tx` panics; the handle stays unopened. -/
theorem Execute_Query_of_begin_error (d : Driver) (s : State) (e : Err) (h : s.t.tx = none)
    (hb : d.Begin s.trace s.t.pool s.t.ctx = .error e) (sql : String)
    (handler : Option ResultHandler) (args : List Value) :
    (txWrapper.Execute d s sql args).2 = .panicked nilDereference ∧
      (txWrapper.Execute d s sql args).1.t.tx = none ∧
      (txWrapper.Query d s sql handler args).2 = .panicked nilDereference ∧
      (txWrapper.Query d s sql handler args).1.t.tx = none := by
  have h1 := (begin_of_error d s e h hb).2.1
  simp [txWrapper.Execute, txWrapper.Query, h1]

/-- A statement the driver rejects: `Execute` returns 0 and the error, the handle keeps its open
transaction, and the only driver call is the `Exec`. -/
theorem Execute_of_driver_error (d : Driver) (s : State) (tx : Tx) (e : Err) (sql : String)
    (args : List Value) (h : s.t.tx = some tx)
    (he : d.Exec s.trace tx s.t.ctx sql args = .error e) :
    (txWrapper.Execute d s sql args).2 = .ret (0, some e) ∧
      (txWrapper.Execute d s sql args).1.t = s.t ∧
      (txWrapper.Execute d s sql args).1.trace = s.trace ++ [.exec tx sql args] := by
  simp [txWrapper.Execute, begin_of_some d s tx h, h, he]

/-- A query the driver rejects when it is issued: `Query` returns -1 and the error, the handle
keeps its open transaction, and the only driver call is the `Query`. -/
theorem Query_of_issue_error (d : Driver) (s : State) (tx : Tx) (e : Err) (sql : String)
    (handler : Option ResultHandler) (args : List Value) (h : s.t.tx = some tx)
    (he : d.Query s.trace tx s.t.ctx sql args = .error e) :
    (txWrapper.Query d s sql handler args).2 = .ret (-1, some e) ∧
      (txWrapper.Query d s sql handler args).1.t = s.t ∧
      (txWrapper.Query d s sql handler args).1.trace = s.trace ++ [.query tx sql args] := by
  simp [txWrapper.Query, begin_of_some d s tx h, h, he]

/-- One increment of the `int32` counter after another. -/
theorem wrapInt32_succ (a : Int) : wrapInt32 (wrapInt32 a + 1) = wrapInt32 (a + 1) := by
  unfold wrapInt32; omega

/-- A count that fits an `int32` is kept. -/
theorem wrapInt32_of_lt (n : Nat) (h : n < 2147483648) : wrapInt32 n = n := by
  unfold wrapInt32; omega

/-- The loop over rows each of which the handler accepts when it comes (after the rows before
it): one handler call per row, in order, and the number of rows, reduced to `int32`. -/
theorem iterate_of_ok (h : ResultHandler) (rows seen : List Row)
    (hok : ∀ p x q, rows = p ++ x :: q → h (seen ++ p) x = .ret none) (c : Int)
    (trace : List Event) :
    txWrapper.iterate h rows seen (wrapInt32 c) trace
      = (trace ++ rows.map Event.handler, .ret (wrapInt32 (c + rows.length), none)) := by
  induction rows generalizing seen c trace with
  | nil => simp [txWrapper.iterate]
  | cons r rest ih =>
    have hr : h seen r = .ret none := by
      have := hok [] r rest rfl
      simpa using this
    have hrest : ∀ p x q, rest = p ++ x :: q → h ((seen ++ [r]) ++ p) x = .ret none := by
      intro p x q hp
      have := hok (r :: p) x q (by rw [hp]; rfl)
      simpa using this
    simp only [txWrapper.iterate, hr, wrapInt32_succ]
    rw [ih (seen ++ [r]) hrest (c + 1) (trace ++ [Event.handler r])]
    simp only [List.map_cons, List.length_cons, List.append_assoc, List.singleton_append,
      Nat.cast_add, Nat.cast_one]
    rw [show c + 1 + (rest.length : Int) = c + ((rest.length : Int) + 1) by omega]

/-- The loop stops at the first row on which the handler returns an error: the handler was
called on the rows up to that one only, and the result is -1 with that error. -/
theorem iterate_of_error (h : ResultHandler) (pre : List Row) (r : Row) (post seen : List Row)
    (e : Err) (hpre : ∀ p x q, pre = p ++ x :: q → h (seen ++ p) x = .ret none)
    (hr : h (seen ++ pre) r = .ret (some e)) (c : Int) (trace : List Event) :
    txWrapper.iterate h (pre ++ r :: post) seen c trace
      = (trace ++ (pre ++ [r]).map Event.handler, .ret (-1, some e)) := by
  induction pre generalizing seen c trace with
  | nil =>
    have hr2 : h seen r = .ret (some e) := by simpa using hr
    simp [txWrapper.iterate, hr2]
  | cons x rest ih =>
    have hx : h seen x = .ret none := by
      have := hpre [] x rest rfl
      simpa using this
    have hrest : ∀ p y q, rest = p ++ y :: q → h ((seen ++ [x]) ++ p) y = .ret none := by
      intro p y q hp
      have := hpre (x :: p) y q (by rw [hp]; rfl)
      simpa using this
    have hr2 : h ((seen ++ [x]) ++ rest) r = .ret (some e) := by simpa using hr
    have hstep : txWrapper.iterate h (x :: rest ++ r :: post) seen c trace
        = txWrapper.iterate h (rest ++ r :: post) (seen ++ [x]) (wrapInt32 (c + 1))
            (trace ++ [Event.handler x]) := by
      simp only [List.cons_append, txWrapper.iterate, hx]
      rfl
    rw [hstep, ih (seen ++ [x]) hrest hr2]
    simp

/-- A successfully issued query: `Query` is the loop over the rows of the cursor, followed by
the deferred `rows.Close()`. -/
theorem Query_of_issued (d : Driver) (s : State) (sql : String)
    (handler : Option ResultHandler) (args : List Value) (tx : Tx) (cur : Rows)
    (hb : (txWrapper.begin d s).1.t.tx = some tx)
    (hq : d.Query (txWrapper.begin d s).1.trace tx (txWrapper.begin d s).1.t.ctx sql args
      = .ok cur) :
    (txWrapper.Query d s sql handler args).2
        = (txWrapper.iterate (txWrapper.orNoop handler) cur.rows [] 0
            ((txWrapper.begin d s).1.trace ++ [.query tx sql args])).2 ∧
      (txWrapper.Query d s sql handler args).1.trace
        = (txWrapper.iterate (txWrapper.orNoop handler) cur.rows [] 0
            ((txWrapper.begin d s).1.trace ++ [.query tx sql args])).1 ++ [.rowsClose tx] ∧
      (txWrapper.Query d s sql handler args).1.t = (txWrapper.begin d s).1.t := by
  simp [txWrapper.Query, hb, hq]

/-- A query whose rows all pass the handler returns the number of rows reduced to `int32`. -/
theorem Query_of_ok (d : Driver) (s : State) (sql : String)
    (handler : Option ResultHandler) (args : List Value) (tx : Tx) (cur : Rows)
    (hb : (txWrapper.begin d s).1.t.tx = some tx)
    (hq : d.Query (txWrapper.begin d s).1.trace tx (txWrapper.begin d s).1.t.ctx sql args
      = .ok cur)
    (hok : ∀ p x q, cur.rows = p ++ x :: q → txWrapper.orNoop handler p x = .ret none) :
    (txWrapper.Query d s sql handler args).2 = .ret (wrapInt32 cur.rows.length, none) ∧
      (txWrapper.Query d s sql handler args).1.trace
        = (txWrapper.begin d s).1.trace ++ [.query tx sql args] ++ cur.rows.map Event.handler
          ++ [.rowsClose tx] := by
  have hi := iterate_of_ok (txWrapper.orNoop handler) cur.rows []
    (by intro p x q hp; simpa using hok p x q hp) 0
    ((txWrapper.begin d s).1.trace ++ [.query tx sql args])
  have h0 : wrapInt32 0 = 0 := by decide
  rw [h0, Int.zero_add] at hi
  have hQ := Query_of_issued d s sql handler args tx cur hb hq
  rw [hQ.1, hQ.2.1, hi]
  exact ⟨rfl, rfl⟩

/-- C4, the code at the failing input: the pool refuses to begin a transaction on the unopened
handle.  `Execute` and `Query` do not return the begin error: the error `begin` returns is
dropped and the call on the nil `t.tx` panics with a nil dereference.  The handle is left
unopened and the only driver call is the failed `Begin`. -/
theorem Execute_Query_panic_on_begin_failure :
    (txWrapper.begin beginFailingDriver unopened).2 = some "connection refused" ∧
      (txWrapper.Execute beginFailingDriver unopened "select 1" []).2
        = .panicked nilDereference ∧
      (txWrapper.Query beginFailingDriver unopened "select 1" none []).2
        = .panicked nilDereference ∧
      (txWrapper.Execute beginFailingDriver unopened "select 1" []).1.t.tx = none ∧
      (txWrapper.Execute beginFailingDriver unopened "select 1" []).1.trace = [.poolBegin 1] ∧
      (txWrapper.Query beginFailingDriver unopened "select 1" none []).1.t.tx = none ∧
      (txWrapper.Query beginFailingDriver unopened "select 1" none []).1.trace
        = [.poolBegin 1] := by
  refine ⟨rfl, rfl, rfl, rfl, rfl, rfl, rfl⟩

/-- C5, the code at the failing input: the query is issued successfully on the open handle and
the driver fails while the rows are read (one row, then `Next()` reports false with `Err()`
set).  `Query` does not return that failure: it returns the number of rows read and a nil error.
The handle keeps its open transaction. -/
theorem Query_drops_cursor_error :
    brokenCursorDriver.Query opened.trace 7 opened.t.ctx "select id from test" []
        = .ok { rows := [[.int 1]], err := some "unexpected EOF" } ∧
      (txWrapper.Query brokenCursorDriver opened "select id from test" none []).2
        = .ret (1, none) ∧
      (txWrapper.Query brokenCursorDriver opened "select id from test" none []).1.t.tx
        = some 7 := by
  refine ⟨rfl, rfl, rfl⟩

/-- C6 as stated fails on a query that returns 2147483648 rows, all accepted by the (nil)
handler: the `int32` counter wraps and `Query` returns -2147483648, not the number of rows. -/
theorem Query_count_wraps :
    hugeDriver.Query opened.trace 7 opened.t.ctx "select generate_series(1, 2147483648)" []
        = .ok { rows := List.replicate 2147483648 [.int 1], err := none } ∧
      (List.replicate 2147483648 ([.int 1] : Row)).length = 2147483648 ∧
      (txWrapper.Query hugeDriver opened "select generate_series(1, 2147483648)" none []).2
        = .ret (-2147483648, none) := by
  refine ⟨rfl, List.length_replicate _ _, ?_⟩
  have h := (Query_of_ok hugeDriver opened "select generate_series(1, 2147483648)" none [] 7
    { rows := List.replicate 2147483648 [.int 1], err := none } rfl rfl
    (fun _ _ _ _ => rfl)).1
  rw [h, List.length_replicate]
  decide

/-- C6, amended: for a successfully issued query with rows `r1..rn` and a row handler, a
closure whose answer may depend on the rows it was called on before (a nil handler counting as
one that always succeeds): if the handler succeeds on every row when that row comes, `Query`
calls it exactly once per row in result order, closes the cursor, and returns `n` reduced to
`int32` with a nil error, which is `n` itself whenever `n` is at most 2147483647; if `r` is the
first row on which the handler fails, with `e`, `Query` calls the handler on the rows up to `r`
only, closes the cursor, and returns -1 and `e`. -/
theorem Query_iterates (d : Driver) (s : State) (sql : String)
    (handler : Option ResultHandler) (args : List Value) (tx : Tx) (cur : Rows)
    (hb : (txWrapper.begin d s).1.t.tx = some tx)
    (hq : d.Query (txWrapper.begin d s).1.trace tx (txWrapper.begin d s).1.t.ctx sql args
      = .ok cur) :
    (∀ seen row, txWrapper.orNoop none seen row = .ret none) ∧
    ((∀ (pre : List Row) (r : Row) (post : List Row), cur.rows = pre ++ r :: post →
        txWrapper.orNoop handler pre r = .ret none) →
      (txWrapper.Query d s sql handler args).2 = .ret (wrapInt32 cur.rows.length, none) ∧
      (cur.rows.length < 2147483648 →
        (txWrapper.Query d s sql handler args).2 = .ret ((cur.rows.length : Int), none)) ∧
      (txWrapper.Query d s sql handler args).1.trace
        = (txWrapper.begin d s).1.trace ++ [.query tx sql args]
          ++ cur.rows.map Event.handler ++ [.rowsClose tx]) ∧
    (∀ (pre : List Row) (r : Row) (post : List Row) (e : Err),
      cur.rows = pre ++ r :: post →
      (∀ (p : List Row) (x : Row) (q : List Row), pre = p ++ x :: q →
        txWrapper.orNoop handler p x = .ret none) →
      txWrapper.orNoop handler pre r = .ret (some e) →
      (txWrapper.Query d s sql handler args).2 = .ret (-1, some e) ∧
      (txWrapper.Query d s sql handler args).1.trace
        = (txWrapper.begin d s).1.trace ++ [.query tx sql args]
          ++ (pre ++ [r]).map Event.handler ++ [.rowsClose tx]) := by
  refine ⟨fun _ _ => rfl, ?_, ?_⟩
  · intro hok
    have h := Query_of_ok d s sql handler args tx cur hb hq hok
    refine ⟨h.1, ?_, h.2⟩
    intro hlt
    rw [h.1, wrapInt32_of_lt _ hlt]
  · intro pre r post e hrows hpre hr
    have hQ := Query_of_issued d s sql handler args tx cur hb hq
    have hi := iterate_of_error (txWrapper.orNoop handler) pre r post [] e
      (by intro p x q hp; simpa using hpre p x q hp) (by simpa using hr) 0
      ((txWrapper.begin d s).1.trace ++ [.query tx sql args])
    rw [hQ.1, hQ.2.1, hrows, hi]
    exact ⟨rfl, rfl⟩

/-- C6 at concrete inputs.  On the rows 1, 2, 3 a handler that accepts every row is called on
them in that order and `Query` reports 3, on a handle that the query opens.  On three equal
rows a handler that counts its calls and fails on the second one is called on the first two
rows only, never on the third, the cursor is closed, and `Query` returns -1 and that error. -/
theorem Query_iterates_witness :
    (txWrapper.Query threeRowsDriver unopened "select id from test order by id"
        (some fun _ _ => .ret none) []).2 = .ret (3, none) ∧
      (txWrapper.Query threeRowsDriver unopened "select id from test order by id"
        (some fun _ _ => .ret none) []).1.trace
        = [.poolBegin 1, .query 7 "select id from test order by id" [], .handler [.int 1],
            .handler [.int 2], .handler [.int 3], .rowsClose 7] ∧
      (txWrapper.Query equalRowsDriver unopened "select 5" (some failOnSecond) []).2
        = .ret (-1, some "second row") ∧
      (txWrapper.Query equalRowsDriver unopened "select 5" (some failOnSecond) []).1.trace
        = [.poolBegin 1, .query 7 "select 5" [], .handler [.int 5], .handler [.int 5],
            .rowsClose 7] :=
  have h := Query_iterates threeRowsDriver unopened "select id from test order by id"
    (some fun _ _ => .ret none) [] 7 { rows := [[.int 1], [.int 2], [.int 3]], err := none }
    rfl rfl
  have h2 := Query_iterates equalRowsDriver unopened "select 5" (some failOnSecond) [] 7
    { rows := [[.int 5], [.int 5], [.int 5]], err := none } rfl rfl
  have hpre : ∀ (p : List Row) (x : Row) (q : List Row), [[Value.int 5]] = p ++ x :: q →
      txWrapper.orNoop (some failOnSecond) p x = .ret none := by
    intro p x q hp
    cases p with
    | nil => rfl
    | cons y ys =>
      have hl := congrArg List.length hp
      simp at hl
  have hfail := h2.2.2 [[.int 5]] [.int 5] [[.int 5]] "second row" rfl hpre rfl
  ⟨((h.2.1 (fun _ _ _ _ => rfl)).2.1 (by decide)), (h.2.1 (fun _ _ _ _ => rfl)).2.2,
    hfail.1, hfail.2⟩

/-! ## Context propagation -/

/-- C9: for every context and handle `h`, `FromContext` on the context derived by binding `h`
under `TransactionKey` returns `h`; the derived context answers every other key as the input
context does, and the input context itself is not changed by the binding (a context is an
immutable value), so that, as for every context in which no `Transaction` is bound under
`TransactionKey`, `FromContext` on an input context without a binding panics with the usage
error and returns no handle. -/
theorem FromContext_bind (ctx : Context) (h : Transaction) :
    FromContext (TransactionHandler.bind ctx h) = .ret h ∧
      (∀ k, k ≠ Key.TransactionKey → (TransactionHandler.bind ctx h).Value k = ctx.Value k) ∧
      ((∀ tx, ctx.Value .TransactionKey ≠ .transaction tx) →
        FromContext ctx = .panicked usageError) := by
  refine ⟨?_, ?_, ?_⟩
  · simp [FromContext, TransactionHandler.bind, Context.Value]
  · intro k hk
    simp [TransactionHandler.bind, Context.Value, hk]
  · intro hno
    unfold FromContext
    split
    · rename_i tx htx
      exact absurd htx (hno tx)
    · rfl

/-- C9 at concrete inputs: a handle bound on the background context is found; the background
context, also after that binding, and a context that binds a value of another type under
`TransactionKey` make `FromContext` panic. -/
theorem FromContext_bind_witness :
    FromContext (TransactionHandler.bind .background 5) = .ret 5 ∧
      FromContext .background = .panicked usageError ∧
      FromContext (.withValue .background .TransactionKey (.other "42"))
        = .panicked usageError :=
  ⟨(FromContext_bind .background 5).1,
    (FromContext_bind .background 5).2.2 (by intro tx; simp [Context.Value]),
    (FromContext_bind (.withValue .background .TransactionKey (.other "42")) 5).2.2
      (by intro tx; simp [Context.Value])⟩

/-! ## The middleware -/

/-- A call on the writer inside the code leaves the handle as it is. -/
theorem respond_t (s : State) (r : Outcome ResponseWriter) : (s.respond r).1.t = s.t := by
  cases r <;> rfl

/-- A call on the writer inside the code makes no driver call. -/
theorem respond_trace (s : State) (r : Outcome ResponseWriter) :
    (s.respond r).1.trace = s.trace := by
  cases r <;> rfl

/-- The recovery step leaves the handle as it is. -/
theorem recover_t (s : State) (exit : Outcome Unit) :
    (TransactionHandler.recover s exit).1.t = s.t := by
  cases exit with
  | ret u => rfl
  | panicked v =>
    cases v with
    | value repr => simp [TransactionHandler.recover, respond_t]
    | error msg unwrap =>
      cases unwrap <;> simp [TransactionHandler.recover, errorsUnwrap, respond_t]

/-- The recovery step makes no driver call. -/
theorem recover_trace (s : State) (exit : Outcome Unit) :
    (TransactionHandler.recover s exit).1.trace = s.trace := by
  cases exit with
  | ret u => rfl
  | panicked v =>
    cases v with
    | value repr => simp [TransactionHandler.recover, respond_trace]
    | error msg unwrap =>
      cases unwrap <;> simp [TransactionHandler.recover, errorsUnwrap, respond_trace]

/-- After a panic whose value unwraps, the recovery step is the one `http.Error` call with the
fixed text and code, whatever the panic value is. -/
theorem recover_of_unwraps (s : State) (v : PanicValue) (hv : v.unwraps = true) :
    (TransactionHandler.recover s (.panicked v)).2
        = (s.respond (httpError s.w "Internal server error" 500)).2 ∧
      (TransactionHandler.recover s (.panicked v)).1.w
        = (s.respond (httpError s.w "Internal server error" 500)).1.w := by
  cases v with
  | value repr =>
    constructor
    · simp only [TransactionHandler.recover, State.logf_w]
      cases httpError s.w "Internal server error" 500 <;> rfl
    · simp only [TransactionHandler.recover, State.logf_w]
      cases httpError s.w "Internal server error" 500 <;> rfl
  | error msg unwrap =>
    cases unwrap with
    | panics m => simp [PanicValue.unwraps] at hv
    | none =>
      constructor
      · simp only [TransactionHandler.recover, errorsUnwrap, State.logf_w]
        cases httpError s.w "Internal server error" 500 <;> rfl
      · simp only [TransactionHandler.recover, errorsUnwrap, State.logf_w]
        cases httpError s.w "Internal server error" 500 <;> rfl
    | wraps m =>
      constructor
      · simp only [TransactionHandler.recover, errorsUnwrap, State.logf_w]
        cases httpError s.w "Internal server error" 500 <;> rfl
      · simp only [TransactionHandler.recover, errorsUnwrap, State.logf_w]
        cases httpError s.w "Internal server error" 500 <;> rfl

/-- On a writer whose header is not written yet and whose methods return, `http.Error` with
code 500 writes the header with status 500 and the plain-text type, and the text and a
newline after the body. -/
theorem httpError_of_unwritten (w : ResponseWriter) (text : String) (hs : w.status = none)
    (hk : w.sound = true) :
    ∃ w2, httpError w text 500 = .ret w2 ∧ w2.status = some 500 ∧
      w2.sentContentType = some (.header "text/plain; charset=utf-8") ∧
      w2.body = w.body ++ (text ++ "\n") ∧ w2.kind = w.kind := by
  cases w with
  | mk kind contentType status sentContentType body =>
    simp only at hs
    subst hs
    cases kind with
    | faulty v => simp [ResponseWriter.sound] at hk
    | server =>
      refine ⟨_, rfl, rfl, rfl, rfl, rfl⟩
    | recorder =>
      refine ⟨_, rfl, rfl, rfl, rfl, rfl⟩

/-- On a writer whose methods return, `http.Error` with code 500 returns. -/
theorem httpError_returns (w : ResponseWriter) (text : String) (hk : w.sound = true) :
    ∃ w2, httpError w text 500 = .ret w2 := by
  cases hs : w.status with
  | none =>
    obtain ⟨w2, h, -⟩ := httpError_of_unwritten w text hs hk
    exact ⟨w2, h⟩
  | some code =>
    cases w with
    | mk kind contentType status sentContentType body =>
      simp only at hs
      subst hs
      cases kind with
      | faulty v => simp [ResponseWriter.sound] at hk
      | server =>
        simp only [httpError, ResponseWriter.WriteHeader, ResponseWriter.Write]
        split <;> exact ⟨_, rfl⟩
      | recorder => exact ⟨_, rfl⟩

/-- When the recovery step returns, the deferred function returns too: it leaves the handle
without underlying transaction; the driver calls it makes are one `Rollback` on the
transaction the handle holds, none if it holds none; the writer is as the recovery step left
it. -/
theorem deferred_of_recovered (debugEnabled : Bool) (d : Driver) (r : Request) (s : State)
    (exit : Outcome Unit) (hrec : (TransactionHandler.recover s exit).2 = .ret ()) :
    (TransactionHandler.deferred debugEnabled d r s exit).2 = .ret () ∧
      (TransactionHandler.deferred debugEnabled d r s exit).1.t.tx = none ∧
      (TransactionHandler.deferred debugEnabled d r s exit).1.trace
        = s.trace ++ (match s.t.tx with
            | some tx => [Event.rollback tx]
            | none => []) ∧
      (TransactionHandler.deferred debugEnabled d r s exit).1.w
        = (TransactionHandler.recover s exit).1.w := by
  have ht := recover_t s exit
  have htr := recover_trace s exit
  have hdef : TransactionHandler.deferred debugEnabled d r s exit
      = (if debugEnabled then
          (txWrapper.Rollback d (TransactionHandler.recover s exit).1).logf
            ("TransactionHandler END: " ++ r.path)
        else txWrapper.Rollback d (TransactionHandler.recover s exit).1, .ret ()) := by
    unfold TransactionHandler.deferred
    generalize TransactionHandler.recover s exit = rs at hrec
    obtain ⟨s1, o⟩ := rs
    simp only at hrec
    subst hrec
    rfl
  rw [hdef]
  cases htx : s.t.tx with
  | none =>
    have hr := Rollback_of_none d (TransactionHandler.recover s exit).1 (by rw [ht]; exact htx)
    rw [hr]
    cases debugEnabled <;> simp [ht, htr, htx]
  | some tx =>
    have hr := Rollback_of_some d (TransactionHandler.recover s exit).1 tx
      (by rw [ht]; exact htx)
    cases debugEnabled <;> simp [hr, htr]

/-- When the recovery step panics, the deferred function is left with that panic before
`tx.Rollback()`: the handle keeps what it held and no driver call is made. -/
theorem deferred_of_panic (debugEnabled : Bool) (d : Driver) (r : Request) (s : State)
    (exit : Outcome Unit) (v : PanicValue)
    (hrec : (TransactionHandler.recover s exit).2 = .panicked v) :
    (TransactionHandler.deferred debugEnabled d r s exit).2 = .panicked v ∧
      (TransactionHandler.deferred debugEnabled d r s exit).1.t = s.t ∧
      (TransactionHandler.deferred debugEnabled d r s exit).1.trace = s.trace := by
  have ht := recover_t s exit
  have htr := recover_trace s exit
  have hdef : TransactionHandler.deferred debugEnabled d r s exit
      = ((TransactionHandler.recover s exit).1, .panicked v) := by
    unfold TransactionHandler.deferred
    generalize TransactionHandler.recover s exit = rs at hrec
    obtain ⟨s1, o⟩ := rs
    simp only at hrec
    subst hrec
    rfl
  rw [hdef]
  exact ⟨rfl, ht, htr⟩

/-- With the pool configured the middleware ends as its deferred function ends, in the state
that function leaves. -/
theorem TransactionHandler_of_pool (debugEnabled : Bool) (h : Request → Script) (d : Driver)
    (pool : Pool) (addr : Transaction) (r : Request) (wd : World) :
    TransactionHandler debugEnabled h d (some pool) addr r wd
      = .ok (TransactionHandler.deferred debugEnabled d r
          (TransactionHandler.served debugEnabled h d pool addr r wd).1
          (TransactionHandler.served debugEnabled h d pool addr r wd).2) := rfl

/-- The rollback guarantee where it holds: with the pool configured, when the wrapped handler
returns, or panics with a value that unwraps on a writer whose methods return, the middleware
returns with the handle cleared, after exactly one `Rollback` on the transaction left open and
no other driver call. -/
theorem TransactionHandler_rolls_back_of_recovered (debugEnabled : Bool) (h : Request → Script)
    (d : Driver) (pool : Pool) (addr : Transaction) (r : Request) (wd : World)
    (hex : ∀ v, (TransactionHandler.served debugEnabled h d pool addr r wd).2 = .panicked v →
      v.unwraps = true ∧
        (TransactionHandler.served debugEnabled h d pool addr r wd).1.w.sound = true) :
    ∃ fin, TransactionHandler debugEnabled h d (some pool) addr r wd = .ok (fin, .ret ()) ∧
      fin.t.tx = none ∧
      fin.trace = (TransactionHandler.served debugEnabled h d pool addr r wd).1.trace
        ++ (match (TransactionHandler.served debugEnabled h d pool addr r wd).1.t.tx with
            | some tx => [Event.rollback tx]
            | none => []) := by
  have hrec : (TransactionHandler.recover
      (TransactionHandler.served debugEnabled h d pool addr r wd).1
      (TransactionHandler.served debugEnabled h d pool addr r wd).2).2 = .ret () := by
    cases hexit : (TransactionHandler.served debugEnabled h d pool addr r wd).2 with
    | ret u => rfl
    | panicked v =>
      obtain ⟨hv, hk⟩ := hex v hexit
      obtain ⟨w2, hw2⟩ := httpError_returns
        (TransactionHandler.served debugEnabled h d pool addr r wd).1.w
        "Internal server error" hk
      rw [(recover_of_unwraps _ v hv).1, hw2]
      rfl
  have hd := deferred_of_recovered debugEnabled d r _ _ hrec
  refine ⟨(TransactionHandler.deferred debugEnabled d r
    (TransactionHandler.served debugEnabled h d pool addr r wd).1
    (TransactionHandler.served debugEnabled h d pool addr r wd).2).1, ?_, hd.2.1, hd.2.2.1⟩
  rw [TransactionHandler_of_pool, ← hd.1]

/-- C1, the code at the failing input: the wrapped handler inserts a row and panics with an
error whose `Unwrap` method panics.  The deferred function calls `errors.Unwrap` on the
recovered value before `tx.Rollback()`, so it is left by the second panic: the handle still
holds the open transaction 7, the trace has no `Rollback`, and `ServeHTTP` panics. -/
theorem TransactionHandler_skips_rollback :
    (TransactionHandler.served false panicUnwrapFails okDriver 1 100 sampleRequest
        freshWorld).1.t.tx = some 7 ∧
      (TransactionHandler false panicUnwrapFails okDriver (some 1) 100 sampleRequest
          freshWorld).toOption.map (fun fin => (fin.1.t.tx, fin.1.trace, fin.2))
        = some (some 7,
            [.poolBegin 1, .exec 7 "insert into category(name) values ('demo')" []],
            .panicked nilDereference) := by
  refine ⟨rfl, rfl⟩

/-- C2 as stated fails for a handler that has started its response before it panics: the
header with status 200 is already sent, so the `WriteHeader(500)` of `http.Error` is ignored and
the fixed text follows what the handler wrote, on the recorder and on the server alike. -/
theorem TransactionHandler_keeps_sent_status :
    (TransactionHandler.served false writeThenPanic okDriver 1 100 sampleRequest freshWorld).2
        = .panicked (.value "boom") ∧
      (TransactionHandler false writeThenPanic okDriver (some 1) 100 sampleRequest
          freshWorld).toOption.map (fun fin => (fin.1.w.status, fin.1.w.body, fin.2))
        = some (some 200, "savedInternal server error\n", .ret ()) ∧
      (TransactionHandler false writeThenPanic okDriver (some 1) 100 sampleRequest
          serverWorld).toOption.map (fun fin => (fin.1.w.status, fin.1.w.body, fin.2))
        = some (some 200, "savedInternal server error\n", .ret ()) := by
  refine ⟨rfl, rfl, rfl⟩

/-- C2, amended: for every wrapped handler that panics with a value `v` that unwraps (any
value that is no error, and any error whose `Unwrap` method returns), on a response writer whose
methods return, the middleware does not re-raise the panic (`ServeHTTP` returns); what it does
to the response is exactly one `http.Error` with the text `Internal server error` and the code
500, the same for every such `v`; and when the handler had not yet sent the response header,
the response gets status 500, the plain-text content type, and the fixed text followed by a
newline after whatever body was there (nothing, on a writer the handler did not write to). -/
theorem TransactionHandler_recovers (debugEnabled : Bool) (h : Request → Script) (d : Driver)
    (pool : Pool) (addr : Transaction) (r : Request) (wd : World) (v : PanicValue)
    (hp : (TransactionHandler.served debugEnabled h d pool addr r wd).2 = .panicked v)
    (hv : v.unwraps = true)
    (hk : (TransactionHandler.served debugEnabled h d pool addr r wd).1.w.sound = true) :
    ∃ fin, TransactionHandler debugEnabled h d (some pool) addr r wd = .ok (fin, .ret ()) ∧
      httpError (TransactionHandler.served debugEnabled h d pool addr r wd).1.w
        "Internal server error" 500 = .ret fin.w ∧
      ((TransactionHandler.served debugEnabled h d pool addr r wd).1.w.status = none →
        fin.w.status = some 500 ∧
        fin.w.sentContentType = some (.header "text/plain; charset=utf-8") ∧
        fin.w.body = (TransactionHandler.served debugEnabled h d pool addr r wd).1.w.body
          ++ "Internal server error\n") := by
  obtain ⟨w2, hw2⟩ := httpError_returns
    (TransactionHandler.served debugEnabled h d pool addr r wd).1.w "Internal server error" hk
  have hro := recover_of_unwraps
    (TransactionHandler.served debugEnabled h d pool addr r wd).1 v hv
  rw [hw2] at hro
  have hrec : (TransactionHandler.recover
      (TransactionHandler.served debugEnabled h d pool addr r wd).1
      (TransactionHandler.served debugEnabled h d pool addr r wd).2).2 = .ret () := by
    rw [hp, hro.1]; rfl
  have hd := deferred_of_recovered debugEnabled d r _ _ hrec
  have hw : (TransactionHandler.deferred debugEnabled d r
      (TransactionHandler.served debugEnabled h d pool addr r wd).1
      (TransactionHandler.served debugEnabled h d pool addr r wd).2).1.w = w2 := by
    rw [hd.2.2.2, hp, hro.2]; rfl
  refine ⟨(TransactionHandler.deferred debugEnabled d r
    (TransactionHandler.served debugEnabled h d pool addr r wd).1
    (TransactionHandler.served debugEnabled h d pool addr r wd).2).1, ?_, ?_, ?_⟩
  · rw [TransactionHandler_of_pool, ← hd.1]
  · rw [hw, hw2]
  · intro hs
    obtain ⟨w3, h3, hst, hct, hbody, -⟩ := httpError_of_unwritten
      (TransactionHandler.served debugEnabled h d pool addr r wd).1.w "Internal server error"
      hs hk
    have h23 : w2 = w3 := by
      rw [hw2] at h3
      injection h3
    rw [hw, h23]
    exact ⟨hst, hct, hbody⟩

/-- C2 at a concrete input: a handler that panics mid-transaction, with an error that wraps
another one, without having written. -/
theorem TransactionHandler_recovers_witness :
    ∃ fin, TransactionHandler false panicMidway okDriver (some 1) 100 sampleRequest freshWorld
        = .ok (fin, .ret ()) ∧
      fin.w.status = some 500 ∧ fin.w.body = "Internal server error\n" := by
  obtain ⟨fin, h1, -, h3⟩ := TransactionHandler_recovers false panicMidway okDriver 1 100
    sampleRequest freshWorld (.error "lookup failed" (.wraps "duplicate key")) rfl rfl rfl
  exact ⟨fin, h1, (h3 rfl).1, (h3 rfl).2.2⟩

/-! ## The connection string -/

/-- A buffer has a positive `Len()` exactly when it is not empty. -/
theorem utf8ByteSize_pos_iff (s : String) : s.utf8ByteSize > 0 ↔ s ≠ "" := by
  cases s with
  | mk cs =>
    cases cs with
    | nil => simp; rfl
    | cons c cs =>
      simp [String.utf8ByteSize_mk, String.ext_iff]
      have := Char.utf8Size_pos c
      omega

/-- Appending to a non-empty string gives a non-empty string. -/
theorem append_ne_empty_left (a b : String) (h : a ≠ "") : a ++ b ≠ "" := by
  intro hab
  apply h
  have hd : (a ++ b).data = [] := by rw [hab]
  rw [String.data_append] at hd
  exact String.ext (List.append_eq_nil.mp hd).1

/-- Joining one more entry appends the separator and the entry. -/
theorem go_append (s : String) (as : List String) (e acc : String) :
    String.intercalate.go acc s (as ++ [e]) = String.intercalate.go acc s as ++ s ++ e := by
  induction as generalizing acc with
  | nil => simp [String.intercalate.go]
  | cons a rest ih => simp [String.intercalate.go, ih]

/-- A join that starts from a non-empty string is not empty. -/
theorem go_ne_empty (s : String) (as : List String) (acc : String) (h : acc ≠ "") :
    String.intercalate.go acc s as ≠ "" := by
  induction as generalizing acc with
  | nil => simpa [String.intercalate.go] using h
  | cons a rest ih =>
    simp only [String.intercalate.go]
    exact ih _ (append_ne_empty_left _ _ (append_ne_empty_left _ _ h))

/-- The separator step followed by a write extends the join of non-empty entries by one. -/
theorem separate_intercalate (L : List String) (hL : ∀ x ∈ L, x ≠ "") (e : String) :
    DatabaseConfig.separate (" ".intercalate L) ++ e = " ".intercalate (L ++ [e]) := by
  cases L with
  | nil =>
    have h0 : "".utf8ByteSize = 0 := rfl
    simp [String.intercalate, DatabaseConfig.separate, String.intercalate.go, h0]
  | cons a rest =>
    have ha : a ≠ "" := hL a (List.mem_cons_self a rest)
    have hne := go_ne_empty " " rest a ha
    simp only [String.intercalate, List.cons_append, go_append]
    unfold DatabaseConfig.separate
    rw [if_pos ((utf8ByteSize_pos_iff _).mpr hne)]


/-- An entry `key=value` is never empty. -/
theorem entry_ne_empty (key value : String) (hk : key ≠ "") : key ++ "=" ++ value ≠ "" :=
  append_ne_empty_left _ _ (append_ne_empty_left _ _ hk)

/-- The closure `add` extends the join by the entry, or leaves it when the value is empty. -/
theorem add_intercalate (L : List String) (hL : ∀ x ∈ L, x ≠ "") (key value : String) :
    DatabaseConfig.add (" ".intercalate L) key value
      = " ".intercalate (L ++ if value = "" then [] else [key ++ "=" ++ value]) := by
  unfold DatabaseConfig.add
  by_cases hv : value = ""
  · simp [hv]
  · simp only [ne_eq, hv, not_false_eq_true, if_true, if_false]
    exact separate_intercalate L hL _

/-- An optional non-empty entry keeps all entries non-empty. -/
theorem mem_optional_ne_empty (cond : Prop) [Decidable cond] (e : String) (he : e ≠ "") :
    ∀ x ∈ (if cond then [] else [e]), x ≠ "" := by
  intro x hx
  by_cases hc : cond
  · simp [hc] at hx
  · simp only [hc, if_false, List.mem_singleton] at hx
    rw [hx]; exact he

/-- The port step extends the join by the port entry, or leaves it when the port is zero. -/
theorem port_intercalate (L : List String) (hL : ∀ x ∈ L, x ≠ "") (port : Nat) :
    (if port ≠ 0 then DatabaseConfig.separate (" ".intercalate L) ++ ("port=" ++ toString port)
      else " ".intercalate L)
      = " ".intercalate (L ++ if port = 0 then [] else ["port=" ++ toString port]) := by
  by_cases hp : port = 0
  · simp [hp]
  · simp only [ne_eq, hp, not_false_eq_true, if_true, if_false]
    exact separate_intercalate L hL _

/-- The buffer `String` builds is the join of the entries that are present. -/
theorem String_eq_joined (c : DatabaseConfig) : c.String = c.joined := by
  have hkey : ∀ (key value : String), key ≠ "" → key ++ "=" ++ value ≠ "" := entry_ne_empty
  have hport : "port=" ++ toString c.Port ≠ "" := append_ne_empty_left _ _ (by decide)
  have h1 := add_intercalate [] (by simp) "host" c.Host
  have hL1 : ∀ x ∈ ([] ++ if c.Host = "" then [] else ["host" ++ "=" ++ c.Host]), x ≠ "" := by
    simpa using mem_optional_ne_empty (c.Host = "") _ (hkey "host" c.Host (by decide))
  have h2 := port_intercalate _ hL1 c.Port
  have hL2 : ∀ x ∈ (([] ++ if c.Host = "" then [] else ["host" ++ "=" ++ c.Host])
      ++ if c.Port = 0 then [] else ["port=" ++ toString c.Port]), x ≠ "" := by
    intro x hx
    rcases List.mem_append.mp hx with hx | hx
    · exact hL1 x hx
    · exact mem_optional_ne_empty (c.Port = 0) _ hport x hx
  have h3 := add_intercalate _ hL2 "database" c.Database
  have hL3 : ∀ x ∈ ((([] ++ if c.Host = "" then [] else ["host" ++ "=" ++ c.Host])
      ++ if c.Port = 0 then [] else ["port=" ++ toString c.Port])
      ++ if c.Database = "" then [] else ["database" ++ "=" ++ c.Database]), x ≠ "" := by
    intro x hx
    rcases List.mem_append.mp hx with hx | hx
    · exact hL2 x hx
    · exact mem_optional_ne_empty (c.Database = "") _ (hkey "database" c.Database (by decide)) x hx
  have h4 := add_intercalate _ hL3 "user" c.User
  have hL4 : ∀ x ∈ (((([] ++ if c.Host = "" then [] else ["host" ++ "=" ++ c.Host])
      ++ if c.Port = 0 then [] else ["port=" ++ toString c.Port])
      ++ if c.Database = "" then [] else ["database" ++ "=" ++ c.Database])
      ++ if c.User = "" then [] else ["user" ++ "=" ++ c.User]), x ≠ "" := by
    intro x hx
    rcases List.mem_append.mp hx with hx | hx
    · exact hL3 x hx
    · exact mem_optional_ne_empty (c.User = "") _ (hkey "user" c.User (by decide)) x hx
  have h5 := add_intercalate _ hL4 "password" c.Password
  unfold DatabaseConfig.String
  simp only []
  rw [show ("" : String) = " ".intercalate [] from rfl, h1, h2, h3, h4, h5]
  unfold DatabaseConfig.joined DatabaseConfig.entries
  have k1 : ("host" : String) ++ "=" = "host=" := by decide
  have k2 : ("database" : String) ++ "=" = "database=" := by decide
  have k3 : ("user" : String) ++ "=" = "user=" := by decide
  have k4 : ("password" : String) ++ "=" = "password=" := by decide
  rw [k1, k2, k3, k4]
  congr 1
  by_cases a1 : c.Host = "" <;> by_cases a2 : c.Port = 0 <;> by_cases a3 : c.Database = "" <;>
    by_cases a4 : c.User = "" <;> by_cases a5 : c.Password = "" <;>
    simp [a1, a2, a3, a4, a5]

/-- C10: for every configuration, `String` is exactly the entries `host=`, `port=` (the port as
a bare decimal), `database=`, `user=`, `password=`, in that order, each left out when its string
is empty or the port is zero, joined by single spaces with nothing before the first or after
the last; the configuration of `TestDatabaseConfigToString` gives the expected string. -/
theorem DatabaseConfig_String_spec (c : DatabaseConfig) :
    c.String = " ".intercalate (c.entries.filterMap id) ∧
      c.entries = [ if c.Host = "" then none else some ("host=" ++ c.Host),
        if c.Port = 0 then none else some ("port=" ++ toString c.Port),
        if c.Database = "" then none else some ("database=" ++ c.Database),
        if c.User = "" then none else some ("user=" ++ c.User),
        if c.Password = "" then none else some ("password=" ++ c.Password) ] ∧
      ({ Host := "host1", Port := 54322, User := "test1", Password := "test2",
          Database := "test3", RuntimeParams := [] } : DatabaseConfig).String
        = "host=host1 port=54322 database=test3 user=test1 password=test2" :=
  ⟨String_eq_joined c, rfl, by decide⟩

end Database
